import Mathlib

/-!
Verification of the EduCalc backend (APPCALCULATOR-FRONT repository).

The Python sources under `src/backend/app/` are shallowly embedded here:
pure string manipulation and number formatting are translated to Lean
functions; the calls into the SymPy computer-algebra library (parsing,
solving, differentiation) are modelled as explicit oracle parameters,
since SymPy is an external dependency and only the control flow around it
belongs to this repository.  Python machine floats are modelled as exact
rationals; raised exceptions become `Except`/`Option` values.
-/

namespace EduCalc

/-! ## Models of the Python string primitives used by the backend -/

/-- Model of `list(s)` for a Python string: Lean's character list. -/
def pyChars (s : String) : List Char := s.toList

/-- Does `hay` start with `needle`?  Model of Python `str.startswith`
restricted to character lists. -/
def startsWithL : List Char → List Char → Bool
  | _, [] => true
  | [], _ :: _ => false
  | a :: as, b :: bs => a == b && startsWithL as bs

/-- Does `needle` occur as a contiguous substring of `hay`?  Model of the
Python `needle in hay` test on strings. -/
def containsSubL : List Char → List Char → Bool
  | [], needle => startsWithL [] needle
  | hay@(_ :: t), needle => startsWithL hay needle || containsSubL t needle

/-- Python `sub in s` (substring containment). -/
def containsSub (s sub : String) : Bool :=
  containsSubL (pyChars s) (pyChars sub)

/-- Model of Python `str.strip()`: drop leading and trailing whitespace. -/
def pyStrip (s : String) : String :=
  (((s.toList.dropWhile Char.isWhitespace).reverse.dropWhile
      Char.isWhitespace).reverse).asString

/-- Model of Python `str.lower()` (the expressions handled here are ASCII). -/
def pyLower (s : String) : String :=
  (s.toList.map Char.toLower).asString

/-- Worker for `pySplit`: scans `hay` for occurrences of the non-empty
separator `sep`, accumulating the current field in `acc` (reversed).  The
fuel argument dominates `hay.length`, making the recursion structural. -/
def splitOnAuxL : Nat → List Char → List Char → List Char → List (List Char)
  | 0, _, _, acc => [acc.reverse]
  | fuel + 1, hay, sep, acc =>
    match hay with
    | [] => [acc.reverse]
    | c :: t =>
      if sep ≠ [] && startsWithL hay sep then
        acc.reverse :: splitOnAuxL fuel (hay.drop sep.length) sep []
      else
        splitOnAuxL fuel t sep (c :: acc)

/-- Model of Python `s.split(sep)` for a non-empty separator: the maximal
split on non-overlapping occurrences, scanning left to right. -/
def pySplit (s sep : String) : List String :=
  (splitOnAuxL (s.length + 1) (pyChars s) (pyChars sep) []).map List.asString

/-- Model of Python `s.replace(old, new)` for a non-empty `old`. -/
def pyReplace (s old new : String) : String :=
  String.intercalate new (pySplit s old)

/-- Index of the first occurrence of `sep` in `hay`, if any (the positive
half of Python `str.find`). -/
def firstIdxSubL : List Char → List Char → Option Nat
  | [], sep => if startsWithL [] sep then some 0 else none
  | hay@(_ :: t), sep =>
    if startsWithL hay sep then some 0
    else (firstIdxSubL t sep).map (· + 1)

/-- Python `s.find(sub)`: index of the first occurrence, `-1` if absent. -/
def pyFind (s sub : String) : Int :=
  match firstIdxSubL (pyChars s) (pyChars sub) with
  | some i => (i : Int)
  | none => -1

/-- Index of the last occurrence of the character `c` in `l`, if any. -/
def lastIdxOfChar (l : List Char) (c : Char) : Option Nat :=
  match l with
  | [] => none
  | a :: t =>
    match lastIdxOfChar t c with
    | some i => some (i + 1)
    | none => if a == c then some 0 else none

/-- Python `s.rfind(sub)` for a single-character `sub`: index of the last
occurrence, `-1` if absent. -/
def pyRfindChar (s : String) (c : Char) : Int :=
  match lastIdxOfChar (pyChars s) c with
  | some i => (i : Int)
  | none => -1

/-- Python `s.count(sub)` for a single-character `sub`. -/
def pyCountChar (s : String) (c : Char) : Nat :=
  s.toList.count c

/-- Model of Python `str.isdigit()` on ASCII text: non-empty and made of
decimal digits only. -/
def pyIsDigit (s : String) : Bool :=
  s.toList ≠ [] && s.toList.all Char.isDigit

/-- Python `s.rstrip(c)` for a single stripping character: remove every
trailing occurrence of `c`. -/
def pyRstrip (s : String) (c : Char) : String :=
  ((s.toList.reverse.dropWhile (· == c)).reverse).asString

/-- Numeric value of a list of decimal digit characters. -/
def digitsVal (l : List Char) : Nat :=
  l.foldl (fun a c => a * 10 + (c.toNat - 48)) 0

/-! ## Model of Python floats

The numbers the engine works with are Python floats.  They are modelled as
exact fractions `num / den` with a positive denominator, kept unnormalized
(no gcd reduction) so that every operation is plain integer arithmetic.
The decimal literals the engine parses and the additions, subtractions,
multiplications and divisions it performs are exact in this model. -/

/-- A Python float value, as the exact fraction `num / den` (`den > 0` in
every value built here). -/
structure PyNum where
  num : Int
  den : Nat
  deriving DecidableEq, Repr

/-- The float of an integer value. -/
def PyNum.ofInt (n : Int) : PyNum := ⟨n, 1⟩

/-- Model of Python `==` on floats: equality of the represented values. -/
def PyNum.eqv (a b : PyNum) : Bool :=
  a.num * (b.den : Int) == b.num * (a.den : Int)

/-- Python float addition. -/
def PyNum.add (a b : PyNum) : PyNum :=
  ⟨a.num * (b.den : Int) + b.num * (a.den : Int), a.den * b.den⟩

/-- Python float subtraction. -/
def PyNum.sub (a b : PyNum) : PyNum :=
  ⟨a.num * (b.den : Int) - b.num * (a.den : Int), a.den * b.den⟩

/-- Python float multiplication. -/
def PyNum.mul (a b : PyNum) : PyNum :=
  ⟨a.num * b.num, a.den * b.den⟩

/-- Python float division (the caller guards against a zero divisor, which
raises `ZeroDivisionError` in Python). -/
def PyNum.div (a b : PyNum) : PyNum :=
  if b.num < 0 then ⟨-(a.num * (b.den : Int)), a.den * b.num.natAbs⟩
  else ⟨a.num * (b.den : Int), a.den * b.num.natAbs⟩

/-- Is the value zero? -/
def PyNum.isZero (a : PyNum) : Bool := a.num == 0

/-- Is the value negative? -/
def PyNum.isNeg (a : PyNum) : Bool := a.num < 0

/-- Model of the Python test `num == int(num)`: the value is an integer. -/
def PyNum.isIntegral (a : PyNum) : Bool := a.num % (a.den : Int) == 0

/-- Model of Python `int(num)` (truncation toward zero; on the branches
where the source applies it the value is an exact integer). -/
def PyNum.trunc (a : PyNum) : Int := a.num.tdiv (a.den : Int)

/-- Model of Python `float(s)` on the tokens that reach it in
`_detect_operation_type` (strings whose characters are digits, `.` and `-`,
as enforced by the preceding `isdigit` guard), with the exact decimal value
kept.  `none` models `float` raising `ValueError`. -/
def parseDecimal? (s : String) : Option PyNum :=
  let l := pyChars s
  let neg := startsWithL l ['-']
  let body := if neg then l.drop 1 else l
  if body.contains '-' then none
  else
    match splitOnAuxL (body.length + 1) body ['.'] [] with
    | [ip] =>
      if ip ≠ [] && ip.all Char.isDigit then
        some ⟨(if neg then -1 else 1) * (digitsVal ip : Int), 1⟩
      else none
    | [ip, fp] =>
      if (ip ++ fp) ≠ [] && (ip ++ fp).all Char.isDigit then
        some ⟨(if neg then -1 else 1) *
          ((digitsVal ip : Int) * (10 : Int) ^ fp.length + (digitsVal fp : Int)),
          10 ^ fp.length⟩
      else none
    | _ => none

/-! ## Embedding of `format_number` (src/backend/app/calculator_engine.py) -/

/-- The character of a decimal digit (`0 ≤ d ≤ 9` at every use). -/
def digitChar : Nat → Char
  | 0 => '0' | 1 => '1' | 2 => '2' | 3 => '3' | 4 => '4'
  | 5 => '5' | 6 => '6' | 7 => '7' | 8 => '8' | _ => '9'

/-- Decimal digits of `n`, most significant first; `fuel` dominates `n` so
the recursion is structural.  Yields `[]` for `n = 0`. -/
def natDigits : Nat → Nat → List Char
  | 0, _ => []
  | fuel + 1, n => if n = 0 then [] else natDigits fuel (n / 10) ++ [digitChar (n % 10)]

/-- Decimal representation of a natural number (model of Python `str` on a
non-negative `int`). -/
def natStr (n : Nat) : String :=
  if n = 0 then "0" else (natDigits (n + 1) n).asString

/-- Decimal representation of an integer (model of Python `str` on `int`). -/
def intStr (n : Int) : String :=
  (if n < 0 then "-" else "") ++ natStr n.natAbs

/-- Left-pad a digit string with zeros to the given width. -/
def padZeros (s : String) (width : Nat) : String :=
  (List.replicate (width - s.length) '0').asString ++ s

/-- Model of the Python formatting `f"{num:.10f}"`: the value rendered with
exactly ten digits after the decimal point, rounding half to even, with a
leading minus sign when the value is negative. -/
def fixed10 (a : PyNum) : String :=
  let N := a.num.natAbs * 10 ^ 10
  let d := a.den
  let ip0 := N / d
  let rem := N % d
  let m :=
    if 2 * rem < d then ip0
    else if d < 2 * rem then ip0 + 1
    else if ip0 % 2 = 0 then ip0 else ip0 + 1
  (if a.isNeg then "-" else "") ++
    natStr (m / 10 ^ 10) ++ "." ++ padZeros (natStr (m % 10 ^ 10)) 10

/-- An arbitrary Python value passed to `format_number`:
`num` is a value whose conversion `float(value)` succeeds with the finite
exact value recorded (SymPy numbers and Python numbers alike), while
`other` is a value for which the conversion or the integer check fails
(unparseable objects, `nan`, `inf`), carrying its `str(value)` rendering. -/
inductive PyVal where
  | num (a : PyNum)
  | other (s : String)
  deriving DecidableEq, Repr

/-- Embedding of `format_number`: integers print without a decimal point,
other values are rendered to ten decimal places and stripped of trailing
zeros and a trailing point, and a value the `try` block cannot handle falls
back to `str(value)`. -/
def formatNumber : PyVal → String
  | .num a =>
    if a.isIntegral then intStr a.trunc
    else pyRstrip (pyRstrip (fixed10 a) '0') '.'
  | .other s => s

/-- `format_number` applied to a float value. -/
def formatNumberNum (a : PyNum) : String := formatNumber (.num a)

/-! ## Embedding of `CalculatorEngine._detect_mode`

The call `sympify(expression)` and the test `expr.free_symbols` belong to
SymPy; they are modelled by an oracle `parseFree : String → Option Bool`
where `none` means `sympify` raised and `some b` means it parsed with
`b = "the parsed expression has free symbols"`. -/

/-- The derivative keywords of `_detect_mode`. -/
def derivativeWords : List String := ["d/dx", "derivative", "diff"]

/-- The integral keywords of `_detect_mode`. -/
def integralWords : List String := ["integral", "integrate"]

/-- Embedding of `CalculatorEngine._detect_mode`. -/
def detectMode (parseFree : String → Option Bool) (expression : String) : String :=
  let exprLower := pyLower expression
  if containsSub expression "=" then "solve"
  else if derivativeWords.any (fun w => containsSub exprLower w) then "derivative"
  else if integralWords.any (fun w => containsSub exprLower w) then "integral"
  else
    match parseFree expression with
    | some true => "algebra"
    | _ => "arithmetic"

/-! ## Embedding of `CalculatorEngine._detect_operation_type`

The Python method receives both the parsed expression and the raw string
but inspects only the string.  Each branch ends in `float(...)` calls
wrapped in `try/except: pass`; a failed conversion therefore falls through
to the next branch, which the `Option` chaining below reproduces. -/

/-- The division branch of `_detect_operation_type`. -/
def detectDivision (ec : String) : Option (String × List PyNum) :=
  if containsSub ec "/" && !containsSub ec "*" && !containsSub ec "+" &&
      !containsSub (pyReplace ec " " "") "-" then
    match pySplit ec "/" with
    | [q1, q2] =>
      let p1 := pyStrip q1
      let p2 := pyStrip q2
      if pyIsDigit (pyReplace (pyReplace p1 "." "") "-" "") &&
          pyIsDigit (pyReplace (pyReplace p2 "." "") "-" "") then
        match parseDecimal? p1, parseDecimal? p2 with
        | some a, some b => some ("division", [a, b])
        | _, _ => none
      else none
    | _ => none
  else none

/-- The multiplication branch of `_detect_operation_type`. -/
def detectMultiplication (ec : String) : Option (String × List PyNum) :=
  if containsSub ec "*" && !containsSub ec "**" && !containsSub ec "/" &&
      !containsSub ec "+" then
    let temp := pyReplace ec " " ""
    if pyCountChar temp '-' ≤ 1 &&
        (pyCountChar temp '-' == 0 || startsWithL (pyChars temp) ['-'] ||
          pyFind temp "*-" > 0) then
      match pySplit ec "*" with
      | [q1, q2] =>
        let p1 := pyStrip q1
        let p2 := pyStrip q2
        if pyIsDigit (pyReplace (pyReplace p1 "." "") "-" "") &&
            pyIsDigit (pyReplace (pyReplace p2 "." "") "-" "") then
          match parseDecimal? p1, parseDecimal? p2 with
          | some a, some b => some ("multiplication", [a, b])
          | _, _ => none
        else none
      | _ => none
    else none
  else none

/-- The power branch of `_detect_operation_type`. -/
def detectPower (ec : String) : Option (String × List PyNum) :=
  if containsSub ec "**" && !containsSub ec "/" && !containsSub ec "+" then
    let temp := pyReplace ec " " ""
    if pyCountChar temp '-' ≤ 1 then
      match pySplit ec "**" with
      | [q1, q2] =>
        let p1 := pyStrip q1
        let p2 := pyStrip q2
        if pyIsDigit (pyReplace (pyReplace p1 "." "") "-" "") &&
            pyIsDigit (pyReplace (pyReplace p2 "." "") "-" "") then
          match parseDecimal? p1, parseDecimal? p2 with
          | some a, some b => some ("power", [a, b])
          | _, _ => none
        else none
      | _ => none
    else none
  else none

/-- The addition branch of `_detect_operation_type`. -/
def detectAddition (ec : String) : Option (String × List PyNum) :=
  if containsSub ec "+" && !containsSub ec "(" && !containsSub ec "*" &&
      !containsSub ec "/" then
    match pySplit ec "+" with
    | [q1, q2] =>
      let p1 := pyStrip q1
      let p2 := pyStrip q2
      if pyIsDigit (pyReplace (pyReplace p1 "." "") "-" "") &&
          pyIsDigit (pyReplace (pyReplace p2 "." "") "-" "") then
        match parseDecimal? p1, parseDecimal? p2 with
        | some a, some b => some ("addition", [a, b])
        | _, _ => none
      else none
    | _ => none
  else none

/-- The subtraction branch of `_detect_operation_type` (splitting at the
last `-`, so that a leading minus sign stays with the first operand). -/
def detectSubtraction (ec : String) : Option (String × List PyNum) :=
  if containsSub ec "-" && !containsSub ec "(" && !containsSub ec "*" &&
      !containsSub ec "/" && !containsSub ec "+" then
    match lastIdxOfChar (pyChars ec) '-' with
    | some idx =>
      if 0 < idx then
        let p1 := pyStrip ((pyChars ec).take idx).asString
        let p2 := pyStrip ((pyChars ec).drop (idx + 1)).asString
        if pyIsDigit (pyReplace (pyReplace p1 "." "") "-" "") &&
            pyIsDigit (pyReplace (pyReplace p2 "." "") "-" "") then
          match parseDecimal? p1, parseDecimal? p2 with
          | some a, some b => some ("subtraction", [a, b])
          | _, _ => none
        else none
      else none
    | none => none
  else none

/-- Embedding of `CalculatorEngine._detect_operation_type`: the branches
fire in source order, and an expression that matches none of them is
reported as `("unknown", [])`. -/
def detectOperationType (expression : String) : String × List PyNum :=
  let ec := pyStrip expression
  match detectDivision ec with
  | some r => r
  | none =>
    match detectMultiplication ec with
    | some r => r
    | none =>
      match detectPower ec with
      | some r => r
      | none =>
        match detectAddition ec with
        | some r => r
        | none =>
          match detectSubtraction ec with
          | some r => r
          | none => ("unknown", [])

/-! ## Results of the simple-operation explainers

Each `_explain_*` method builds its narrative steps and returns
`format_number` applied to the Python arithmetic on the two operands; the
result values are embedded here (the step lists are treated below, where
only their numbering is at stake). -/

/-- The `result` field returned by `CalculatorEngine._explain_addition`. -/
def explainAdditionResult (a b : PyNum) : String :=
  formatNumberNum (a.add b)

/-- The `result` field returned by `CalculatorEngine._explain_subtraction`. -/
def explainSubtractionResult (a b : PyNum) : String :=
  formatNumberNum (a.sub b)

/-- The `result` field returned by `CalculatorEngine._explain_multiplication`. -/
def explainMultiplicationResult (a b : PyNum) : String :=
  formatNumberNum (a.mul b)

/-- The `result` field returned by `CalculatorEngine._explain_division`
(defined when the divisor is non-zero; a zero divisor raises
`ZeroDivisionError`, which `_arithmetic_detailed` turns into the compound
fallback). -/
def explainDivisionResult (a b : PyNum) : String :=
  formatNumberNum (a.div b)

/-! ## Embedding of the `Step` model (src/backend/app/models.py)

`Step` is a pydantic `BaseModel` with the four declared fields below.
The engine's call sites also pass an `expression_latex=...` keyword, but
pydantic's default configuration ignores keywords that match no declared
field, so the model drops them; `mkStep` reproduces that behaviour. -/

/-- The `Step` pydantic model: exactly the fields declared in models.py. -/
structure Step where
  step : Int
  description : String
  expression : Option String
  detail : Option String
  deriving DecidableEq, Repr

/-- The keyword arguments the engine passes when constructing a `Step`,
including the undeclared `expression_latex` keyword. -/
structure StepKwargs where
  step : Int
  description : String
  expression : Option String := none
  expression_latex : Option String := none
  detail : Option String := none
  deriving DecidableEq, Repr

/-- Constructing a `Step` from the engine's keyword arguments: pydantic's
default model configuration silently ignores the keywords that match no
declared field, so `expression_latex` never reaches the model. -/
def mkStep (a : StepKwargs) : Step :=
  ⟨a.step, a.description, a.expression, a.detail⟩

/-- A serialized JSON value of a `Step.model_dump()` entry. -/
inductive JVal where
  | jint (n : Int)
  | jstr (s : String)
  | jnull
  deriving DecidableEq, Repr

/-- Embedding of `Step.model_dump()`: the association list of the model's
declared fields, in declaration order. -/
def stepModelDump (s : Step) : List (String × JVal) :=
  [("step", .jint s.step),
   ("description", .jstr s.description),
   ("expression", match s.expression with | some e => .jstr e | none => .jnull),
   ("detail", match s.detail with | some d => .jstr d | none => .jnull)]

/-! ## Step numbering of every success path of `CalculatorEngine.calculate`

Each calculation method builds its `steps` list by appending `Step`
records whose `step` fields are either literals or `len(steps) + 1`; which
appends happen depends on branch conditions that involve SymPy values.
`stepNums` computes, per method and per combination of branch outcomes,
the sequence of `step` numbers of the returned list, mirroring the source
line by line.  The SymPy-dependent branch conditions are the `Bool`
parameters of `CalcShape`. -/

/-- Step numbers appended by `_explain_long_division` (always the two
records numbered 3 and 4). -/
def explainLongDivisionNums : List Nat := [3, 4]

/-- Step numbers of `_explain_division`: introduction and question, then
either the long-division sub-list (dividend an integer `≥ 100`) or the
single solving step, then a verification step when the remainder is zero,
then the final step. -/
def explainDivisionNums (useLong remZero : Bool) : List Nat :=
  let s := [1, 2]
  let s := if useLong then s ++ explainLongDivisionNums else s ++ [3]
  let s := if remZero then s ++ [s.length + 1] else s
  s ++ [s.length + 1]

/-- Step numbers of `_explain_multiplication` (`small` is the test
`num1 <= 12 and num2 <= 12`). -/
def explainMultiplicationNums (small : Bool) : List Nat :=
  let s := [1]
  let s := if small then s ++ [2] else s
  let s := s ++ [s.length + 1]
  s ++ [s.length + 1]

/-- Step numbers of `_explain_addition`. -/
def explainAdditionNums : List Nat := [1, 2, 3]

/-- Step numbers of `_explain_subtraction`. -/
def explainSubtractionNums : List Nat := [1, 2, 3]

/-- Step numbers of `_explain_power` (`small` is the test on the
exponent's size and integrality). -/
def explainPowerNums (small : Bool) : List Nat :=
  let s := [1]
  let s := if small then s ++ [2] else s
  let s := s ++ [s.length + 1]
  s ++ [s.length + 1]

/-- Step numbers produced by `_generate_calculation_steps`: the PEMDAS
step numbered 2, then the parenthesis step numbered 3 when the processed
expression changed; the multiplication/division and addition/subtraction
processors return their input unchanged, so their steps never fire, and
the `except` branch appends its generic step at the current counter,
yielding the same two shapes. -/
def generateCalculationNums (parenChanged : Bool) : List Nat :=
  if parenChanged then [2, 3] else [2]

/-- Step numbers of `_arithmetic_compound`: on the normal path the
original-expression step, the generated intermediate steps and a final
step at `len(steps) + 1`; on the exception path the fixed two-step
fallback. -/
def arithmeticCompoundNums (ok parenChanged : Bool) : List Nat :=
  if ok then
    let s := [1] ++ generateCalculationNums parenChanged
    s ++ [s.length + 1]
  else [1, 2]

/-- Step numbers of `_algebra` on its success path (an expression with no
variables is redirected to `_arithmetic` and is covered by the arithmetic
shapes).  The two introduction steps always fire since the variable list
is non-empty here. -/
def algebraNums (expandChanged simplifyChanged : Bool) : List Nat :=
  let s := [1, 2]
  let s := if expandChanged then s ++ [s.length + 1] else s
  let s := if simplifyChanged then s ++ [s.length + 1] else s
  s ++ [s.length + 1]

/-- Step numbers of `_solve_equation` on its success path: four fixed
steps, a verification step numbered 5 exactly when `solve` returned a
single solution, and a final step at `len(steps) + 1`. -/
def solveNums (singleSolution : Bool) : List Nat :=
  let s := [1, 2, 3, 4]
  let s := if singleSolution then s ++ [5] else s
  s ++ [s.length + 1]

/-- Step numbers of `_derivative` on its success path. -/
def derivativeNums (simplifyChanged : Bool) : List Nat :=
  let s := [1, 2, 3, 4]
  let s := if simplifyChanged then s ++ [5] else s
  s ++ [s.length + 1]

/-- Step numbers of `_integral` on its success path (six fixed steps). -/
def integralNums : List Nat := [1, 2, 3, 4, 5, 6]

/-- One success path of `CalculatorEngine.calculate`: a calculation method
together with the outcomes of its SymPy-dependent branch conditions. -/
inductive CalcShape where
  | additionS
  | subtractionS
  | multiplicationS (small : Bool)
  | powerS (small : Bool)
  | divisionS (useLong remZero : Bool)
  | compoundS (ok parenChanged : Bool)
  | algebraS (expandChanged simplifyChanged : Bool)
  | solveS (singleSolution : Bool)
  | derivativeS (simplifyChanged : Bool)
  | integralS
  deriving DecidableEq, Repr

/-- The sequence of `step` numbers of the list returned on a success path. -/
def stepNums : CalcShape → List Nat
  | .additionS => explainAdditionNums
  | .subtractionS => explainSubtractionNums
  | .multiplicationS small => explainMultiplicationNums small
  | .powerS small => explainPowerNums small
  | .divisionS useLong remZero => explainDivisionNums useLong remZero
  | .compoundS ok parenChanged => arithmeticCompoundNums ok parenChanged
  | .algebraS e s => algebraNums e s
  | .solveS single => solveNums single
  | .derivativeS s => derivativeNums s
  | .integralS => integralNums

/-! ## Embedding of `_solve_equation`'s result construction -/

/-- Model of the unpacking `left, right = expression.split("=")` followed
by `left.strip()` / `right.strip()`: defined exactly when the split yields
two parts (otherwise the unpacking raises, reported as a `ValueError`). -/
def splitEquation (expression : String) : Option (String × String) :=
  match pySplit expression "=" with
  | [l, r] => some (pyStrip l, pyStrip r)
  | _ => none

/-- Model of `var = list(free_vars)[0]`: the unknown is the first free
symbol of the parsed equation. -/
def chooseUnknown (freeVars : List String) : Option String :=
  freeVars.head?

/-- The `result` string `_solve_equation` renders from the chosen unknown
and the solution list `solve` returned: `"Sin solución"` for no solution,
`var = value` for one, and a braced, comma-separated set for several. -/
def solveResultString (var : String) (solutions : List PyVal) : String :=
  match solutions with
  | [] => "Sin solución"
  | [s] => var ++ " = " ++ formatNumber s
  | sols =>
    var ++ " = \x7b" ++ String.intercalate ", " (sols.map formatNumber) ++ "\x7d"

/-- The result of `_solve_equation` once the equation is parsed, as a
function of the equation's free symbols and `solve`'s solution list: with
no free symbol the method raises (`ValueError` after wrapping), otherwise
it renders the solutions for the first free symbol. -/
def solveEquationResult (freeVars : List String) (solutions : List PyVal) :
    Except String String :=
  match chooseUnknown freeVars with
  | none => .error "Error resolviendo ecuación: No se encontró ninguna variable en la ecuación"
  | some v => .ok (solveResultString v solutions)

/-! ## Embedding of `sanitize_expression` (src/backend/app/utils.py)

`raise ValueError(msg)` becomes `Except.error msg`; the returned (already
whitespace-stripped) expression becomes `Except.ok`. -/

/-- The forbidden substrings of `sanitize_expression`, in source order. -/
def forbiddenWords : List String :=
  ["__", "import", "exec", "eval", "compile", "open", "file",
   "input", "raw_input", "execfile", "reload", "globals", "locals"]

/-- The `ValueError` message raised for a forbidden term. -/
def prohibitedMsg (w : String) : String :=
  "Expresión contiene término prohibido: " ++ w

/-- The non-blank comma-separated parts of the stripped expression
(`[p.strip() for p in expression.split(',') if p.strip()]`). -/
def commaParts (e : String) : List String :=
  ((pySplit e ",").map pyStrip).filter (fun p => p ≠ "")

/-- The comma test of `sanitize_expression`: a comma is present and the
expression splits into more than one non-blank part. -/
def commaSplitsMany (e : String) : Bool :=
  containsSub e "," && (commaParts e).length > 1

/-- The `ValueError` message raised by the comma check, for two parts and
for more than two parts respectively. -/
def commaErrorMsg (parts : List String) : String :=
  match parts with
  | [p1, p2] =>
    "❌ La coma (,) NO es un operador matemático válido.\n\n" ++
    "📚 Explicación:\n" ++
    "La coma se usa en programación para separar elementos de una lista, pero en matemáticas no es una operación.\n\n" ++
    "✅ Solución: Calcula cada expresión por separado:\n\n" ++
    "   1) " ++ p1 ++ "\n" ++
    "   2) " ++ p2
  | ps =>
    "❌ La coma (,) NO es un operador matemático válido.\n\n" ++
    "📚 Explicación:\n" ++
    "La coma se usa en programación para separar elementos, pero en matemáticas no existe como operación.\n\n" ++
    "✅ Solución: Calcula cada expresión por separado:\n\n" ++
    String.intercalate "\n"
      (ps.enum.map (fun ip => "   " ++ natStr (ip.1 + 1) ++ ") " ++ ip.2))

/-- Embedding of `sanitize_expression`: strip whitespace, raise on a
multi-part comma expression, raise on the first forbidden substring of the
lowercased expression, and otherwise return the stripped expression. -/
def sanitizeExpression (expression : String) : Except String String :=
  let e := pyStrip expression
  if commaSplitsMany e then .error (commaErrorMsg (commaParts e))
  else
    match forbiddenWords.find? (fun w => containsSub (pyLower e) w) with
    | some w => .error (prohibitedMsg w)
    | none => .ok e

/-- Did an `Except` computation succeed? -/
def isOkE (r : Except String String) : Bool :=
  match r with
  | .ok _ => true
  | .error _ => false

/-! ## Embedding of the HTTP routes (src/backend/app/routes/)

The engine call is an oracle `String → PyOutcome CalcData`: its three
constructors model a normal return, a raised `ValueError` and any other
raised exception.  The route handlers below reproduce the `try/except`
structure of `calculate.py` and `validate.py`. -/

/-- Outcome of a Python call: a value, a `ValueError`, or any other
exception. -/
inductive PyOutcome (α : Type) where
  | ok (a : α)
  | valueError (msg : String)
  | otherError (msg : String)
  deriving DecidableEq, Repr

/-- The dictionary `CalculatorEngine.calculate` returns on success. -/
structure CalcData where
  result : String
  steps : List Step
  mode : String
  deriving DecidableEq, Repr

/-- HTTP outcome of `POST /calculate`: a 200 `CalculationResponse`, a 400
`HTTPException` with the error message, or a generic 500. -/
inductive RouteResult where
  | ok (original result : String) (steps : List Step) (mode : String)
      (error : Option String)
  | badRequest (message : String)
  | internalError
  deriving DecidableEq, Repr

/-- Embedding of the `calculate` route handler: sanitize, run the engine,
build the response; a `ValueError` from either stage becomes a 400 with
the error's message, any other exception becomes a 500. -/
def calculateRoute (engine : String → PyOutcome CalcData) (expression : String) :
    RouteResult :=
  match sanitizeExpression expression with
  | .error m => .badRequest m
  | .ok clean =>
    match engine clean with
    | .ok d => .ok expression d.result d.steps d.mode none
    | .valueError m => .badRequest m
    | .otherError _ => .internalError

/-- Is the calculation engine reached for this expression?  In the
handler the engine runs only after `sanitize_expression` returns. -/
def engineInvoked (expression : String) : Bool :=
  isOkE (sanitizeExpression expression)

/-- HTTP outcome of `POST /validate`: a 200 `ValidationResponse`, or a 500
`HTTPException` (raised only for a non-`ValueError` exception; the
embedded components below never produce one). -/
inductive ValidateResult where
  | ok (valid : Bool) (expression : String) (mode : String) (error : Option String)
  | internalError (msg : String)
  deriving DecidableEq, Repr

/-- The error message of the `valid=False` response for an unparseable
expression. -/
def invalidExprMsg : String := "La expresión no es válida o no se puede parsear"

/-- Embedding of the `validate_expression` route handler.  `parseFree` is
the `_detect_mode` SymPy oracle; `parseOk` models
`CalculatorEngine.validate_expression`, which catches every exception of
`sympify(expression, evaluate=False)` and returns a boolean. -/
def validateRoute (parseFree : String → Option Bool) (parseOk : String → Bool)
    (expression mode : String) : ValidateResult :=
  match sanitizeExpression expression with
  | .error m => .ok false expression mode (some m)
  | .ok clean =>
    let m := if mode == "auto" then detectMode parseFree clean else mode
    if parseOk clean then .ok true clean m none
    else .ok false expression m (some invalidExprMsg)

/-- The keyword arguments of the first step built by
`_arithmetic_compound` for the expression `2+2*3`, including the
`expression_latex` keyword the engine passes. -/
def compoundIntroKwargs : StepKwargs :=
  ⟨1, "💡 Expresión original", some "2+2*3", some "2 + 2 \\cdot 3",
    some "Vamos a resolver esta expresión matemática paso a paso, siguiendo el orden correcto de operaciones."⟩

end EduCalc

deriving instance DecidableEq for Except

set_option maxRecDepth 32768

namespace EduCalc

/-! ## Helper lemmas -/

/-- Every list starts with the empty list. -/
theorem startsWithL_nil (l : List Char) : startsWithL l [] = true := by
  cases l <;> rfl

/-- A single-character substring is absent when the character is. -/
theorem containsSubL_single (l : List Char) (c : Char) (h : ∀ a ∈ l, a ≠ c) :
    containsSubL l [c] = false := by
  induction l with
  | nil => rfl
  | cons a t ih =>
    have ha : (a == c) = false := by
      simp only [beq_eq_false_iff_ne]
      exact h a (List.mem_cons_self a t)
    simp [containsSubL, startsWithL, startsWithL_nil, ha,
      ih (fun x hx => h x (List.mem_cons_of_mem a hx))]

/-- `digitChar` never yields a decimal point. -/
theorem digitChar_ne_dot (d : Nat) : digitChar d ≠ '.' := by
  unfold digitChar
  split <;> decide

/-- Every character `natDigits` emits is a digit character. -/
theorem mem_natDigits (fuel : Nat) :
    ∀ n, ∀ c ∈ natDigits fuel n, ∃ d, c = digitChar d := by
  induction fuel with
  | zero => intro n c hc; simp [natDigits] at hc
  | succ fuel ih =>
    intro n c hc
    by_cases h : n = 0
    · simp [natDigits, h] at hc
    · simp only [natDigits, h, if_false, List.mem_append, List.mem_singleton] at hc
      rcases hc with hc | hc
      · exact ih (n / 10) c hc
      · exact ⟨n % 10, hc⟩

/-- Every character of `natStr n` is a digit character. -/
theorem mem_natStr (n : Nat) : ∀ c ∈ (natStr n).toList, ∃ d, c = digitChar d := by
  intro c hc
  unfold natStr at hc
  by_cases h : n = 0
  · simp [h] at hc
    exact ⟨0, by simp [hc, digitChar]⟩
  · simp only [h, if_false] at hc
    have : ((natDigits (n + 1) n).asString).toList = natDigits (n + 1) n := rfl
    rw [this] at hc
    exact mem_natDigits (n + 1) n c hc

/-- The decimal rendering of an integer contains no decimal point. -/
theorem intStr_no_dot (n : Int) : containsSub (intStr n) "." = false := by
  have hdot : pyChars "." = ['.'] := rfl
  unfold containsSub
  rw [hdot]
  apply containsSubL_single
  intro a ha
  have hsplit : pyChars (intStr n) =
      ((if n < 0 then "-" else "") : String).toList ++ (natStr n.natAbs).toList := by
    simp [pyChars, intStr, String.toList, String.data_append]
  rw [hsplit] at ha
  rcases List.mem_append.mp ha with ha | ha
  · by_cases hn : n < 0
    · simp [hn] at ha
      simp [ha]
    · simp [hn, String.toList] at ha
  · obtain ⟨d, rfl⟩ := mem_natStr n.natAbs a ha
    exact digitChar_ne_dot d

/-! ## The claims -/

/-- C1: automatic mode detection follows a fixed first-match-wins priority
list: an equality sign yields `solve`; otherwise a derivative keyword in
the lowercased expression yields `derivative`; otherwise an integral
keyword yields `integral`; otherwise `algebra` exactly when the expression
parses with free symbols, else `arithmetic`. -/
theorem detect_mode_priority :
    ∀ (parseFree : String → Option Bool) (e : String),
      (containsSub e "=" = true → detectMode parseFree e = "solve") ∧
      (containsSub e "=" = false →
        derivativeWords.any (fun w => containsSub (pyLower e) w) = true →
        detectMode parseFree e = "derivative") ∧
      (containsSub e "=" = false →
        derivativeWords.any (fun w => containsSub (pyLower e) w) = false →
        integralWords.any (fun w => containsSub (pyLower e) w) = true →
        detectMode parseFree e = "integral") ∧
      (containsSub e "=" = false →
        derivativeWords.any (fun w => containsSub (pyLower e) w) = false →
        integralWords.any (fun w => containsSub (pyLower e) w) = false →
        parseFree e = some true →
        detectMode parseFree e = "algebra") ∧
      (containsSub e "=" = false →
        derivativeWords.any (fun w => containsSub (pyLower e) w) = false →
        integralWords.any (fun w => containsSub (pyLower e) w) = false →
        (parseFree e = none ∨ parseFree e = some false) →
        detectMode parseFree e = "arithmetic") := by
  intro parseFree e
  refine ⟨?_, ?_, ?_, ?_, ?_⟩
  · intro h; simp [detectMode, h]
  · intro h1 h2; simp [detectMode, h1, h2]
  · intro h1 h2 h3; simp [detectMode, h1, h2, h3]
  · intro h1 h2 h3 h4; simp [detectMode, h1, h2, h3, h4]
  · intro h1 h2 h3 h4
    rcases h4 with h4 | h4 <;> simp [detectMode, h1, h2, h3, h4]

/-- C2: on every success path of every calculation mode (simple and
compound arithmetic, long division, algebra, solve, derivative, integral)
and on every fallback branch, the returned steps list is non-empty and its
step numbers are strictly increasing in list order. -/
theorem step_numbers_increasing :
    ∀ shape : CalcShape,
      1 ≤ (stepNums shape).length ∧ List.Chain' (· < ·) (stepNums shape) := by
  intro shape
  cases shape with
  | additionS =>
    norm_num [stepNums, explainAdditionNums, List.chain'_cons]
  | subtractionS =>
    norm_num [stepNums, explainSubtractionNums, List.chain'_cons]
  | multiplicationS small =>
    cases small <;>
      norm_num [stepNums, explainMultiplicationNums, List.chain'_cons]
  | powerS small =>
    cases small <;> norm_num [stepNums, explainPowerNums, List.chain'_cons]
  | divisionS useLong remZero =>
    cases useLong <;> cases remZero <;>
      norm_num [stepNums, explainDivisionNums, explainLongDivisionNums,
        List.chain'_cons]
  | compoundS ok parenChanged =>
    cases ok <;> cases parenChanged <;>
      norm_num [stepNums, arithmeticCompoundNums, generateCalculationNums,
        List.chain'_cons]
  | algebraS e s =>
    cases e <;> cases s <;> norm_num [stepNums, algebraNums, List.chain'_cons]
  | solveS single =>
    cases single <;> norm_num [stepNums, solveNums, List.chain'_cons]
  | derivativeS s =>
    cases s <;> norm_num [stepNums, derivativeNums, List.chain'_cons]
  | integralS =>
    norm_num [stepNums, integralNums, List.chain'_cons]

/-- C3: `POST /calculate` answers 400 with the error's message exactly when
the sanitizer or the engine raises a `ValueError`, 500 when the engine
raises any other exception, and a 200 response otherwise; the four cases
below are exhaustive over the handler's control flow. -/
theorem calculate_route_status :
    ∀ (engine : String → PyOutcome CalcData) (e : String),
      (∀ m, sanitizeExpression e = .error m →
        calculateRoute engine e = .badRequest m) ∧
      (∀ c m, sanitizeExpression e = .ok c → engine c = .valueError m →
        calculateRoute engine e = .badRequest m) ∧
      (∀ c m, sanitizeExpression e = .ok c → engine c = .otherError m →
        calculateRoute engine e = .internalError) ∧
      (∀ c d, sanitizeExpression e = .ok c → engine c = .ok d →
        calculateRoute engine e = .ok e d.result d.steps d.mode none) := by
  intro engine e
  refine ⟨?_, ?_, ?_, ?_⟩
  · intro m h; simp [calculateRoute, h]
  · intro c m h1 h2; simp [calculateRoute, h1, h2]
  · intro c m h1 h2; simp [calculateRoute, h1, h2]
  · intro c d h1 h2; simp [calculateRoute, h1, h2]

/-- C4 counterexample: on `"eval(2)"`, which contains the disallowed
substring `eval`, the sanitizer does not return the expression with the
substring removed: it raises a `ValueError` and returns nothing. -/
theorem sanitize_strip_counterexample :
    sanitizeExpression "eval(2)" = .error (prohibitedMsg "eval") ∧
    sanitizeExpression "eval(2)" ≠ .ok "(2)" ∧
    isOkE (sanitizeExpression "eval(2)") = false := by decide

/-- C4 (amended): the sanitizer does not remove disallowed substrings; it
strips surrounding whitespace and rejects (raises `ValueError` on) any
expression whose lowercased form contains one, so the expression passed on
to the engine is the whitespace-stripped original, and it never contains a
forbidden substring. -/
theorem sanitize_trims_and_rejects :
    ∀ e : String,
      (∀ c, sanitizeExpression e = .ok c →
        c = pyStrip e ∧ ∀ w ∈ forbiddenWords, containsSub (pyLower c) w = false) ∧
      ((∃ w ∈ forbiddenWords, containsSub (pyLower (pyStrip e)) w = true) →
        isOkE (sanitizeExpression e) = false) := by
  intro e
  constructor
  · intro c hc
    unfold sanitizeExpression at hc
    by_cases hcm : commaSplitsMany (pyStrip e)
    · simp [hcm] at hc
    · simp only [hcm, if_false, Bool.false_eq_true] at hc
      cases hf : forbiddenWords.find? (fun w => containsSub (pyLower (pyStrip e)) w) with
      | some w => rw [hf] at hc; exact absurd hc (by simp)
      | none =>
        rw [hf] at hc
        have hce : c = pyStrip e := by
          cases hc; rfl
        subst hce
        refine ⟨rfl, ?_⟩
        intro w hw
        have := List.find?_eq_none.mp hf w hw
        simpa using this
  · rintro ⟨w, hw, hcont⟩
    unfold sanitizeExpression isOkE
    by_cases hcm : commaSplitsMany (pyStrip e)
    · simp [hcm]
    · simp only [hcm, if_false, Bool.false_eq_true]
      cases hf : forbiddenWords.find? (fun w => containsSub (pyLower (pyStrip e)) w) with
      | some w' => simp
      | none =>
        exact absurd hcont (by simpa using List.find?_eq_none.mp hf w hw)

/-- C5: the `Step` model declares no field for a typeset (LaTeX) rendering,
so the `expression_latex` keyword the engine passes is ignored by the
model's constructor and absent from the serialized step: the response
never carries the typeset rendering the engine produced.  Shown on the
introduction step `_arithmetic_compound` builds for `2+2*3`. -/
theorem step_latex_dropped :
    (∀ (a : StepKwargs) (l : String),
      mkStep ⟨a.step, a.description, a.expression, some l, a.detail⟩ =
        mkStep ⟨a.step, a.description, a.expression, none, a.detail⟩) ∧
    (stepModelDump (mkStep compoundIntroKwargs)).map Prod.fst =
      ["step", "description", "expression", "detail"] ∧
    compoundIntroKwargs.expression_latex = some "2 + 2 \\cdot 3" := by
  exact ⟨fun a l => rfl, rfl, rfl⟩

/-- C6 counterexample: `"eval,1"` contains the forbidden substring `eval`,
yet the sanitizer's comma check fires first, so the raised `ValueError`
carries the comma message, which does not name the forbidden term (it does
not even contain the word `prohibido`). -/
theorem forbidden_naming_counterexample :
    containsSub (pyLower (pyStrip "eval,1")) "eval" = true ∧
    sanitizeExpression "eval,1" = .error (commaErrorMsg ["eval", "1"]) ∧
    containsSub (commaErrorMsg ["eval", "1"]) "prohibido" = false := by decide

/-- C6 (amended): for every expression containing a forbidden substring
whose stripped form does not split into several comma-separated parts, the
sanitizer raises a `ValueError` naming a forbidden term the expression
contains, `POST /calculate` answers 400 with that message, and the engine
is never invoked.  (When the comma check fires first the request is still
rejected with 400, but with the comma message.) -/
theorem forbidden_term_rejected :
    ∀ (e : String) (engine : String → PyOutcome CalcData),
      commaSplitsMany (pyStrip e) = false →
      (∃ w ∈ forbiddenWords, containsSub (pyLower (pyStrip e)) w = true) →
      ∃ w ∈ forbiddenWords,
        containsSub (pyLower (pyStrip e)) w = true ∧
        sanitizeExpression e = .error (prohibitedMsg w) ∧
        calculateRoute engine e = .badRequest (prohibitedMsg w) ∧
        engineInvoked e = false := by
  intro e engine hcm hex
  have hsome : (forbiddenWords.find? (fun w => containsSub (pyLower (pyStrip e)) w)).isSome := by
    rw [List.find?_isSome]
    obtain ⟨w, hw, hc⟩ := hex
    exact ⟨w, hw, by simpa using hc⟩
  obtain ⟨w, hf⟩ := Option.isSome_iff_exists.mp hsome
  have hw : w ∈ forbiddenWords := List.mem_of_find?_eq_some hf
  have hc : containsSub (pyLower (pyStrip e)) w = true := by
    simpa using List.find?_some hf
  have hs : sanitizeExpression e = .error (prohibitedMsg w) := by
    unfold sanitizeExpression
    simp [hcm, hf]
  exact ⟨w, hw, hc, hs, by simp [calculateRoute, hs], by simp [engineInvoked, hs, isOkE]⟩

/-- C6 witness: the amended statement at the concrete expression
`"eval(2)"`, fully evaluated. -/
theorem forbidden_term_rejected_witness :
    ∃ w ∈ forbiddenWords,
      containsSub (pyLower (pyStrip "eval(2)")) w = true ∧
      sanitizeExpression "eval(2)" = .error (prohibitedMsg w) ∧
      calculateRoute (fun _ => .ok ⟨"0", [], "arithmetic"⟩) "eval(2)" =
        .badRequest (prohibitedMsg w) ∧
      engineInvoked "eval(2)" = false :=
  forbidden_term_rejected "eval(2)" (fun _ => .ok ⟨"0", [], "arithmetic"⟩)
    (by decide) ⟨"eval", by decide, by decide⟩

/-- C7: the operation-type detector classifies `"2+2"` as the simple
addition of 2 and 2, and `_explain_addition` formats the sum of those two
floats as the result string `"4"`, with no decimal point. -/
theorem two_plus_two_is_four :
    detectOperationType "2+2" = ("addition", [PyNum.ofInt 2, PyNum.ofInt 2]) ∧
    explainAdditionResult (PyNum.ofInt 2) (PyNum.ofInt 2) = "4" ∧
    containsSub (explainAdditionResult (PyNum.ofInt 2) (PyNum.ofInt 2)) "." = false := by
  decide

/-- C8: solving `"x=5"`: the equation splits on `=` into `x` and `5`, the
single free symbol `x` is chosen as the unknown, and the single solution 5
is rendered as the result string `"x = 5"` (variable name, `" = "`,
formatted solution). -/
theorem solve_x_eq_five :
    splitEquation "x=5" = some ("x", "5") ∧
    chooseUnknown ["x"] = some "x" ∧
    solveEquationResult ["x"] [.num (PyNum.ofInt 5)] = .ok "x = 5" ∧
    formatNumber (.num (PyNum.ofInt 5)) = "5" := by
  decide

/-- C9: `POST /validate` never answers 400: a sanitizer `ValueError` and a
parse failure both yield a 200 response with `valid = False` and a
non-null error message, a parseable sanitized expression yields 200 with
`valid = True` and `error = None`, and the 500 branch is unreachable for
the handler's own components (it fires only on a non-`ValueError`
exception). -/
theorem validate_route_always_ok :
    ∀ (parseFree : String → Option Bool) (parseOk : String → Bool) (e mode : String),
      (∀ m, sanitizeExpression e = .error m →
        validateRoute parseFree parseOk e mode = .ok false e mode (some m)) ∧
      (∀ c, sanitizeExpression e = .ok c → parseOk c = true →
        validateRoute parseFree parseOk e mode =
          .ok true c (if mode == "auto" then detectMode parseFree c else mode) none) ∧
      (∀ c, sanitizeExpression e = .ok c → parseOk c = false →
        validateRoute parseFree parseOk e mode =
          .ok false e (if mode == "auto" then detectMode parseFree c else mode)
            (some invalidExprMsg)) ∧
      (∀ msg, validateRoute parseFree parseOk e mode ≠ .internalError msg) := by
  intro parseFree parseOk e mode
  refine ⟨?_, ?_, ?_, ?_⟩
  · intro m h; simp [validateRoute, h]
  · intro c h1 h2; simp [validateRoute, h1, h2]
  · intro c h1 h2; simp [validateRoute, h1, h2]
  · intro msg
    cases hs : sanitizeExpression e with
    | error m => simp [validateRoute, hs]
    | ok c =>
      by_cases hp : parseOk c = true <;> simp [validateRoute, hs, hp]

/-- C10: `format_number` is total: an integral float prints as the
integer's decimal representation with no decimal point, a non-integral
float prints to ten decimal places with trailing zeros and a trailing
point stripped, and a value whose conversion fails falls back to
`str(value)`. -/
theorem format_number_cases :
    ∀ (a : PyNum) (s : String),
      (a.isIntegral = true →
        formatNumber (.num a) = intStr a.trunc ∧
        containsSub (formatNumber (.num a)) "." = false) ∧
      (a.isIntegral = false →
        formatNumber (.num a) = pyRstrip (pyRstrip (fixed10 a) '0') '.') ∧
      formatNumber (.other s) = s := by
  intro a s
  refine ⟨?_, ?_, rfl⟩
  · intro h
    have heq : formatNumber (.num a) = intStr a.trunc := by simp [formatNumber, h]
    exact ⟨heq, by rw [heq]; exact intStr_no_dot _⟩
  · intro h
    simp [formatNumber, h]

end EduCalc
